import Mathlib

/-!
Verification of the PulseHomeLab/router-configurator automation script.

The repository holds two versions of one Puppeteer script that logs into a
router's web UI, navigates to the DHCP page, writes DNS server values and
clicks an apply control: `src/index.js` (current) and `src/unnamed/part_000`
(an earlier revision of the same file).

Shallow embedding conventions used throughout this file:
- A browsing context (Page or Frame) is abstracted by its query oracle
  `String → QueryResult`: for a CSS selector string, `page.$(sel)` either
  resolves an element handle (`found e`, elements named by `Nat` handles),
  resolves nothing (`notFound`), or throws because the selector is malformed
  or unsupported (`error`).
- Element interactions on a successfully resolved handle (click, type) are
  modelled as always succeeding: in the sources every such click is wrapped
  in a swallow-all catch, and the claims under study are about which element
  is acted on and which boolean is returned, not about interaction faults.
- Functions that in JS return `true` after acting on an element are modelled
  as returning `Option Nat`: `some e` means "returned true, having acted on
  element `e`"; `none` means "returned false".
- Fallible JS functions whose exceptions escape to the caller are modelled
  with `Except`.
-/

namespace Router

/-- Result of `page.$(sel)` / `ctx.$(sel)` for one selector string: an
element handle, no match, or a thrown error (malformed or unsupported
selector pattern). -/
inductive QueryResult where
  | found (e : Nat)
  | notFound
  | error
deriving DecidableEq

/-- A browsing context abstracted by its selector-query oracle. -/
def Ctx : Type := String → QueryResult

/-- True when the query resolved an element handle. -/
def QueryResult.isFound : QueryResult → Bool
  | .found _ => true
  | .notFound => false
  | .error => false

/-- Embeds `waitAndTypeFirst(page, selectors, value)` of `src/index.js`
lines 166-181: for each selector in order, `page.$(sel)` is attempted inside
`try { } catch { }` (so a thrown query leaves `el` undefined and the loop
continues); on the first resolved element it triple-clicks (caught) and
types `value`, returning true. `some e` means it returned true having typed
into element `e`; `none` means it returned false. -/
def waitAndTypeFirst (ctx : Ctx) (selectors : List String) (value : String) :
    Option Nat :=
  match selectors with
  | [] => none
  | sel :: rest =>
    match ctx sel with
    | .found e => some e
    | .notFound => waitAndTypeFirst ctx rest value
    | .error => waitAndTypeFirst ctx rest value

/-- Embeds `waitAndTypeFirst(page, selectors, value)` of
`src/unnamed/part_000` lines 169-179: `const el = await page.$(sel);` is NOT
wrapped in try/catch there, so a query error propagates out of the whole
cascade (modelled as `Except.error ()`); a resolved element is clicked
(caught) and typed into, returning true. -/
def waitAndTypeFirstV0 (ctx : Ctx) (selectors : List String) (value : String) :
    Except Unit (Option Nat) :=
  match selectors with
  | [] => .ok none
  | sel :: rest =>
    match ctx sel with
    | .found e => .ok (some e)
    | .notFound => waitAndTypeFirstV0 ctx rest value
    | .error => .error ()

/-- Embeds `clickFirst(page, selectors, opts)` of `src/index.js` lines
229-244: `page.$(sel)` inside try/catch (error leaves `el` undefined, loop
continues); first resolved element is clicked (caught) and true is
returned after an optional sleep. `some e` means returned true having
clicked element `e`. -/
def clickFirst (ctx : Ctx) (selectors : List String) : Option Nat :=
  match selectors with
  | [] => none
  | sel :: rest =>
    match ctx sel with
    | .found e => some e
    | .notFound => clickFirst ctx rest
    | .error => clickFirst ctx rest

/-- Embeds `clickFirst(page, selectors, opts)` of `src/unnamed/part_000`
lines 227-247: there the catch branch explicitly `continue`s ("Skip invalid
selector strings"), a null result also continues, and a resolved element is
clicked (caught, concurrently with the optional sleep) returning true. The
sleep arrangement differs from `src/index.js` only in timing. -/
def clickFirstV0 (ctx : Ctx) (selectors : List String) : Option Nat :=
  match selectors with
  | [] => none
  | sel :: rest =>
    match ctx sel with
    | .found e => some e
    | .notFound => clickFirstV0 ctx rest
    | .error => clickFirstV0 ctx rest

/-- Frame accessibility oracle: `handle.contentFrame()` for an iframe
element handle, `some f` when the embedded document is accessible. -/
def FrameOf : Type := Nat → Option Nat

/-- The fixed iframe selector list of `getContentFrame` (`src/index.js`
lines 143-149). -/
def contentFrameSelectors : List String :=
  ["iframe#menuIframe",
   "iframe[src*=\"dhcp\"]",
   "iframe[src*=\"bbsp\"]",
   "iframe[src*=\"lan\"]",
   "iframe"]

/-- The loop body of `getContentFrame(page)` of `src/index.js` lines
150-163, generalised over the selector list it iterates: for each selector,
`page.$(sel)` inside try/catch; if a handle resolved, `handle.contentFrame()`
inside try/catch; if a frame resolved, return it, otherwise continue with
the next selector. -/
def getContentFrameGo (qf : Ctx) (cf : FrameOf) : List String → Option Nat
  | [] => none
  | sel :: rest =>
    match qf sel with
    | .found h =>
      match cf h with
      | some f => some f
      | none => getContentFrameGo qf cf rest
    | .notFound => getContentFrameGo qf cf rest
    | .error => getContentFrameGo qf cf rest

/-- Embeds `getContentFrame(page)` of `src/index.js` lines 141-164: the loop
applied to the fixed selector list. -/
def getContentFrame (qf : Ctx) (cf : FrameOf) : Option Nat :=
  getContentFrameGo qf cf contentFrameSelectors

/-- One step of the frame cascade for a single selector: the frame it
resolves, if any (query must find a handle and its document be accessible). -/
def frameStep (qf : Ctx) (cf : FrameOf) (sel : String) : Option Nat :=
  match qf sel with
  | .found h => cf h
  | .notFound => none
  | .error => none

/-- Concrete context used to witness C1: the first two selectors are absent,
the third resolves element 5 (which is also an iframe handle whose document
frame 9 is accessible). -/
def ctxC1 : Ctx := fun s =>
  if s = "input#a" then .notFound
  else if s = "input#b" then .error
  else if s = "input#dns1" then .found 5
  else .notFound

/-- Frame oracle used to witness C1. -/
def cfC1 : FrameOf := fun h => if h = 5 then some 9 else none

/-- Concrete context for C9's counterexample: querying "p:bad(" throws,
"input#dns1" resolves element 7. -/
def ctxC9 : Ctx := fun s =>
  if s = "p:bad(" then .error
  else if s = "input#dns1" then .found 7
  else .notFound

/-- Concrete context for C10's counterexample: querying "div:oops[" throws,
"input#dns2" resolves element 3. -/
def ctxC10 : Ctx := fun s =>
  if s = "div:oops[" then .error
  else if s = "input#dns2" then .found 3
  else .notFound

/-- A DOM input element as the Field Writer observes it: its current value
and the log of events dispatched on it, each entry recording the event name
and the element's value at the moment of dispatch. -/
structure Elem where
  value : String
  events : List (String × String)
deriving DecidableEq

/-- `el.dispatchEvent(new Event(name, { bubbles: true }))`: appends one
entry to the element's event log. -/
def dispatchOn (el : Elem) (name : String) : Elem :=
  { el with events := el.events ++ [(name, el.value)] }

/-- `el.value = v`. -/
def setValueTo (el : Elem) (v : String) : Elem :=
  { el with value := v }

/-- Embeds the write sequence of `setVal` inside `setDnsByHeuristic`
(`src/index.js` lines 212-221), for a non-null element: focus (no DOM-state
effect in this model), clear the value, dispatch "input", set the new
value, dispatch "input" then "change". -/
def setVal (el : Elem) (v : String) : Elem :=
  let e1 := setValueTo el ""
  let e2 := dispatchOn e1 "input"
  let e3 := setValueTo e2 v
  dispatchOn (dispatchOn e3 "input") "change"

/-- Embeds the write sequence of `setInputByLabel` (`src/index.js` lines
314-320), applied once a label-associated input was resolved: focus, clear
the value, dispatch "input", set the new value, dispatch "input". Note the
source dispatches no "change" event on this path. -/
def setInputByLabelWrite (el : Elem) (v : String) : Elem :=
  let e1 := setValueTo el ""
  let e2 := dispatchOn e1 "input"
  let e3 := setValueTo e2 v
  dispatchOn e3 "input"

/-- Substring containment on strings (needle occurs contiguously in hay),
used to model JS `String.prototype.includes` and the alternation-of-literals
regexes of the heuristic scan. -/
def strContains (hay needle : String) : Bool :=
  (List.range (hay.data.length + 1)).any fun i =>
    needle.data.isPrefixOf (hay.data.drop i)

/-- An input element as the heuristic attribute scan observes it: the id,
name and class attributes (empty string for an absent attribute, matching
the `(el.id || "")` coalescing in the source). -/
structure HInput where
  id : String
  name : String
  className : String
deriving DecidableEq, BEq

/-- The attribute haystack `(el.id||"") + " " + (el.name||"") + " " +
(el.className||"")` of `setDnsByHeuristic`, lowercased (the source either
lowercases it explicitly or tests it with case-insensitive regexes). -/
def heurHay (el : HInput) : String :=
  (el.id ++ " " ++ el.name ++ " " ++ el.className).toLower

/-- `looksLikeDns` of `src/index.js` lines 185-190: the lowercased
id/name/class haystack contains "dns". -/
def looksLikeDns (el : HInput) : Bool :=
  strContains (heurHay el) "dns"

/-- The test `/pri|primary|dns1|pref/i` of `src/index.js` line 206 on the
attribute haystack (case-insensitive alternation of literals). -/
def priTest (el : HInput) : Bool :=
  strContains (heurHay el) "pri" || strContains (heurHay el) "primary" ||
    strContains (heurHay el) "dns1" || strContains (heurHay el) "pref"

/-- The test `/sec|secondary|dns2|alt/i` of `src/index.js` line 208. -/
def secTest (el : HInput) : Bool :=
  strContains (heurHay el) "sec" || strContains (heurHay el) "secondary" ||
    strContains (heurHay el) "dns2" || strContains (heurHay el) "alt"

/-- Embeds `setDnsByHeuristic(ctx, dns1, dns2)` of `src/index.js` lines
183-227. `inputs0` is the result of the in-page query for text-like inputs
(`input[type="text"], input[type="tel"], input:not([type])`); the function
filters those that look DNS-related, returns `(false, !dns2)` when none
remain, otherwise picks a primary (regex match or positionally first), a
secondary when `dns2` is truthy (regex match, else any input other than the
primary, else null), writes via `setVal` and returns `(ok1, ok2)` where
`setVal` on a null element returns false. An `evaluate` that throws yields
the same `(false, !dns2)` observable via the attached catch, so a failing
evaluation is represented by an `inputs0` with no DNS-looking entries. -/
def setDnsByHeuristic (inputs0 : List HInput) (dns1 dns2 : String) :
    Bool × Bool :=
  match inputs0.filter looksLikeDns with
  | [] => (false, dns2.isEmpty)
  | a :: rest =>
    let inputs := a :: rest
    let pri := (inputs.find? priTest).getD a
    let sec : Option HInput :=
      if dns2.isEmpty then none
      else
        match inputs.find? secTest with
        | some s => some s
        | none => inputs.find? (fun el => el != pri)
    let ok1 := true
    let ok2 := if dns2.isEmpty then true else sec.isSome
    (ok1, ok2)

/-- `SELECTORS.primaryDns` of `src/index.js` lines 91-105. -/
def primaryDnsSelectors : List String :=
  ["input#dnsMainPri",
   "input[name=\"dnsMainPri\"]",
   "input[id*=\"dnsMainPri\" i]",
   "input[id*=\"dnspri\" i]",
   "input[name*=\"dnspri\" i]",
   "input#PrimaryDNSServer",
   "input[name=\"PrimaryDNSServer\"]",
   "input#primary_dns",
   "input[name=\"primary_dns\"]",
   "input[name=\"dns1\"]",
   "input#dns1",
   "input[id*=\"primary\" i]",
   "input[name*=\"primary\" i]"]

/-- `SELECTORS.secondaryDns` of `src/index.js` lines 106-120. -/
def secondaryDnsSelectors : List String :=
  ["input#dnsMainSec",
   "input[name=\"dnsMainSec\"]",
   "input[id*=\"dnsMainSec\" i]",
   "input[id*=\"dnssec\" i]",
   "input[name*=\"dnssec\" i]",
   "input#SecondaryDNSServer",
   "input[name=\"SecondaryDNSServer\"]",
   "input#secondary_dns",
   "input[name=\"secondary_dns\"]",
   "input[name=\"dns2\"]",
   "input#dns2",
   "input[id*=\"secondary\" i]",
   "input[name*=\"secondary\" i]"]

/-- The content frame as `setDnsValues` observes it: its selector-query
oracle (driving tier 1's cascades), the per-label-text outcome of
`setInputByLabel` (tier 2), and the text-like input population seen by the
heuristic scan (tier 3). -/
structure DnsFrame where
  q : Ctx
  label : String → Bool
  heurInputs : List HInput

/-- Trace entries recording which resolution steps `setDnsValues` attempts:
the `ensureManualDns` pre-step, the tier-1 selector cascades for the
primary and secondary fields, the tier-2 label fallbacks, and the tier-3
heuristic scan. -/
inductive DnsOp where
  | ensureManual
  | tier1Pri
  | tier1Sec
  | tier2Pri
  | tier2Sec
  | tier3
deriving DecidableEq

/-- Tier-1 outcome for the primary field: `waitAndTypeFirst(frame,
SELECTORS.primaryDns, dns1)` of `src/index.js` line 433. -/
def t1pri (fr : DnsFrame) (d1 : String) : Bool :=
  (waitAndTypeFirst fr.q primaryDnsSelectors d1).isSome

/-- Tier-1 outcome for the secondary field: `waitAndTypeFirst(frame,
SELECTORS.secondaryDns, dns2)` of `src/index.js` line 435. -/
def t1sec (fr : DnsFrame) (d2 : String) : Bool :=
  (waitAndTypeFirst fr.q secondaryDnsSelectors d2).isSome

/-- The tier-2 label chain for the primary field (`src/index.js` lines
440-443), a short-circuit disjunction over four label texts. -/
def labPriChain (fr : DnsFrame) : Bool :=
  fr.label "Primary DNS Server" || fr.label "Primary DNS" ||
    fr.label "Servidor DNS primário" || fr.label "Preferred DNS"

/-- The tier-2 label chain for the secondary field (`src/index.js` lines
447-450). -/
def labSecChain (fr : DnsFrame) : Bool :=
  fr.label "Secondary DNS Server" || fr.label "Secondary DNS" ||
    fr.label "Servidor DNS secundário" || fr.label "Alternate DNS"

/-- Embeds `setDnsValues(page, dns1, dns2, debug)` of `src/index.js` lines
424-477, for a located content frame: after the (result-ignored)
`ensureManualDns` pre-step, tier 1 runs the primary cascade always and the
secondary cascade when `dns2` is truthy; tier 2 (label chains) runs for a
field only when that field is still unset; tier 3 (heuristic scan) runs
when the primary is still unset or a requested secondary is still unset,
or-ing its outcome in. The result is the thrown error when the primary
field is still unresolved, paired with the trace of attempted steps
(the debug logging on lines 459-473 has no effect on either). -/
def setDnsValuesFrame (fr : DnsFrame) (d1 d2 : String) :
    Except String Unit × List DnsOp :=
  let ok1a := t1pri fr d1
  let ok2a := if d2.isEmpty then true else t1sec fr d2
  let ok1b := if ok1a then true else labPriChain fr
  let ok2b := if !ok2a && !d2.isEmpty then labSecChain fr else ok2a
  let tier3run := !ok1b || (!d2.isEmpty && !ok2b)
  let hres := setDnsByHeuristic fr.heurInputs d1 d2
  let ok1c := if tier3run then (ok1b || hres.1) else ok1b
  let ops :=
    [DnsOp.ensureManual, DnsOp.tier1Pri]
      ++ (if d2.isEmpty then [] else [DnsOp.tier1Sec])
      ++ (if ok1a then [] else [DnsOp.tier2Pri])
      ++ (if !ok2a && !d2.isEmpty then [DnsOp.tier2Sec] else [])
      ++ (if tier3run then [DnsOp.tier3] else [])
  ((if ok1c then Except.ok ()
    else Except.error "Could not locate the Primary DNS field in the DHCP page."),
   ops)

/-- Embeds the whole of `setDnsValues` including line 426: when
`getContentFrame` resolves no frame the function throws before attempting
anything. -/
def setDnsValues (frameQ : Option DnsFrame) (d1 d2 : String) :
    Except String Unit × List DnsOp :=
  match frameQ with
  | none => (Except.error "Content frame not found (menuIframe).", [])
  | some fr => setDnsValuesFrame fr d1 d2

/-- True when the Except result is a success. -/
def isOkE : Except String Unit → Bool
  | .ok _ => true
  | .error _ => false

/-- The primary DNS field counts as resolved when the frame was located and
some tier can set it: tier 1's cascade, tier 2's label chain, or tier 3's
heuristic scan (which sets a primary whenever any DNS-looking input
exists). -/
def primaryResolved (frameQ : Option DnsFrame) (d1 : String) : Bool :=
  match frameQ with
  | none => false
  | some fr =>
    t1pri fr d1 || labPriChain fr ||
      !(fr.heurInputs.filter looksLikeDns).isEmpty

/-- `SELECTORS.saveButtons` of `src/index.js` lines 128-135. -/
def saveButtonsSelectors : List String :=
  ["button#btnApply_ex",
   "button[name=\"btnApply_ex\"]",
   "button#btnApply",
   "button#btn_save",
   "input[type=\"submit\"]",
   "button[type=\"submit\"]"]

/-- One attempt of the apply step: the fixed `#btnApply_ex` lookup, the
generic save-button cascade, a text match for one word, or the global
`ApplyConfig` invocation. -/
inductive SaveAttempt where
  | fixedId
  | cascade
  | text (w : String)
  | globalFn
deriving DecidableEq

/-- The save context as `saveChanges` observes it: the selector-query
oracle of the context it was handed (frame or page), the per-word outcome
of `clickByTextInContext`, and whether the page exposes a global
`ApplyConfig` function. -/
structure SaveCtx where
  q : Ctx
  byText : String → Bool
  applyConfigDefined : Bool

/-- The text words tried by `saveChanges` in order (`src/index.js` lines
500-505). -/
def saveTextWords : List String :=
  ["Apply", "Save", "Guardar", "Aplicar", "Submit", "OK"]

/-- Embeds `saveChanges(ctx)` of `src/index.js` lines 479-522: after the
(effect-only) dialog override, try `ctx.$("#btnApply_ex")` (error caught),
then `clickFirst` over `SELECTORS.saveButtons`, then
`clickByTextInContext` for each word in order, then invoke the global
`ApplyConfig` if defined; the first success returns true immediately and
exhaustion returns false. Paired with the trace of attempts made. -/
def saveChanges (c : SaveCtx) : Bool × List SaveAttempt :=
  if (c.q "#btnApply_ex").isFound then (true, [.fixedId])
  else if (clickFirst c.q saveButtonsSelectors).isSome then
    (true, [.fixedId, .cascade])
  else if c.byText "Apply" then
    (true, [.fixedId, .cascade, .text "Apply"])
  else if c.byText "Save" then
    (true, [.fixedId, .cascade, .text "Apply", .text "Save"])
  else if c.byText "Guardar" then
    (true, [.fixedId, .cascade, .text "Apply", .text "Save", .text "Guardar"])
  else if c.byText "Aplicar" then
    (true, [.fixedId, .cascade, .text "Apply", .text "Save", .text "Guardar",
      .text "Aplicar"])
  else if c.byText "Submit" then
    (true, [.fixedId, .cascade, .text "Apply", .text "Save", .text "Guardar",
      .text "Aplicar", .text "Submit"])
  else if c.byText "OK" then
    (true, [.fixedId, .cascade, .text "Apply", .text "Save", .text "Guardar",
      .text "Aplicar", .text "Submit", .text "OK"])
  else if c.applyConfigDefined then
    (true, [.fixedId, .cascade, .text "Apply", .text "Save", .text "Guardar",
      .text "Aplicar", .text "Submit", .text "OK", .globalFn])
  else
    (false, [.fixedId, .cascade, .text "Apply", .text "Save", .text "Guardar",
      .text "Aplicar", .text "Submit", .text "OK", .globalFn])

/-- Modelled from the spec ("try in order, first success wins", spec
section 9): the generic ordered-strategies resolver `saveChanges` is
compared against. -/
def tryInOrder : List (SaveAttempt × Bool) → Bool × List SaveAttempt
  | [] => (false, [])
  | (a, ok) :: rest =>
    if ok then (true, [a])
    else ((tryInOrder rest).1, a :: (tryInOrder rest).2)

/-- The ordered attempt stages of the apply step with their outcomes, read
off the source order: fixed identifier, generic cascade, the six text
words, then the global function. -/
def saveStages (c : SaveCtx) : List (SaveAttempt × Bool) :=
  ((SaveAttempt.fixedId, (c.q "#btnApply_ex").isFound) ::
    (SaveAttempt.cascade, (clickFirst c.q saveButtonsSelectors).isSome) ::
    saveTextWords.map (fun w => (SaveAttempt.text w, c.byText w))) ++
    [(SaveAttempt.globalFn, c.applyConfigDefined)]

/-- The success line printed by `main` (`src/index.js` line 696). -/
def successMsg (d1 d2 : String) : String :=
  "✔ DNS updated to " ++ d1 ++ (if d2.isEmpty then "" else ", " ++ d2)

/-- Embeds the tail of `main` after `saveChanges` and `verifyDnsApplied`
have produced `saved` and `verified` (`src/index.js` lines 663-696):
`verified` is only ever logged under `--debug`; then `if (!saved)` throws
the fatal no-save-control error, else the success line is printed. -/
def mainTail (saved verified : Bool) (d1 d2 : String) : Except String String :=
  if !saved then Except.error "Could not find a Save/Apply button."
  else Except.ok (successMsg d1 d2)

/-- Exit status of the run as a function of the outcome of `main`'s try
block: the catch handler (`src/index.js` lines 697-706) sets
`process.exitCode = 1` on any thrown error, and a normal completion leaves
the default 0. -/
def exitCodeOf : Except String String → Nat
  | .ok _ => 0
  | .error _ => 1

/-- Embeds `main`'s check of the navigation result (`src/index.js` lines
651-654): a null path throws the fatal error, any truthy string proceeds. -/
def mainNavCheck : Option String → Except String Unit
  | none =>
    Except.error
      "Could not reach DNS page automatically. Run with --headful and adjust SELECTORS."
  | some _ => Except.ok ()

/-- The navigation context as `navigateToDns` observes it: the top page's
selector-query oracle, the per-text outcome of `clickByText`, the iframe
query and frame-accessibility oracles for `getContentFrame`, and the
outcome of the `#dhcp2title` text check inside the frame. -/
structure NavCtx where
  q : Ctx
  byText : String → Bool
  qf : Ctx
  cf : FrameOf
  titleOk : Bool

/-- One menu transition of `navigateToDns`: click the fixed-id element if
`page.$(idSel)` resolves one (the click itself is caught), else fall back
to `clickByText(label)`, whose boolean decides the transition. -/
def navStep (c : NavCtx) (idSel label : String) : Bool :=
  match c.q idSel with
  | .found _ => true
  | .notFound => c.byText label
  | .error => c.byText label

/-- Embeds `navigateToDns(page, debug)` of `src/index.js` lines 370-422:
three transitions (Advanced Configuration, LAN, DHCP Server), each aborting
with null on failure; then the content frame is located (null if absent);
the bounded `#dhcp2title` wait is error-swallowed, and the title text check
only selects which truthy string is returned: "iframe-dhcp" when the title
matched, "iframe-dhcp-no-title" otherwise. -/
def navigateToDns (c : NavCtx) : Option String :=
  if !navStep c "#addconfig" "Advanced Configuration" then none
  else if !navStep c "#lanconfig" "LAN" then none
  else if !navStep c "#landhcp" "DHCP Server" then none
  else
    match getContentFrameGo c.qf c.cf contentFrameSelectors with
    | none => none
    | some _ =>
      some (if c.titleOk then "iframe-dhcp" else "iframe-dhcp-no-title")

/-- The verification environment of `verifyDnsApplied`, indexed by loop
iteration: whether `getContentFrame` resolves a frame at iteration `i`, and
the `(primary, secondary)` strings `readDnsValuesFromFrame` returns there
(its own selector cascade and catch-to-empty behaviour are folded into the
oracle; a re-navigation's effect on the form shows up in later reads). -/
structure VerifyEnv where
  frameAt : Nat → Bool
  readAt : Nat → String × String

/-- The match test of one verification iteration (`src/index.js` lines
579-581): primary equals the expected value, and the secondary matters only
when a secondary was requested. -/
def dnsMatch (env : VerifyEnv) (e1 e2 : String) (i : Nat) : Bool :=
  ((env.readAt i).1 == e1) && (e2.isEmpty || ((env.readAt i).2 == e2))

/-- The ascending iteration indices `a, a+1, ..., a+n-1` of the
`for (let i = 0; i < retries; i++)` loop. -/
def iotaFrom (a : Nat) : Nat → List Nat
  | 0 => []
  | Nat.succ m => a :: iotaFrom (a + 1) m

/-- The loop body of `verifyDnsApplied` (`src/index.js` lines 575-589) over
the remaining iteration indices: break (returning false) when no frame
resolves, return true on a match, otherwise sleep and — only when
`i === retries - 2` (an exact integer comparison, hence the `Int` cast) —
re-run `navigateToDns` once (errors swallowed), recording the iteration
index in the second component. -/
def verifyGo (env : VerifyEnv) (e1 e2 : String) (retries : Nat) :
    List Nat → Bool × List Nat
  | [] => (false, [])
  | i :: rest =>
    if env.frameAt i then
      if dnsMatch env e1 e2 i then (true, [])
      else
        let navs := if (i : Int) = (retries : Int) - 2 then [i] else []
        let r := verifyGo env e1 e2 retries rest
        (r.1, navs ++ r.2)
    else (false, [])

/-- Embeds `verifyDnsApplied(page, expected1, expected2, { retries })` of
`src/index.js` lines 569-591: the loop over iterations 0..retries-1, paired
with the list of iterations at which the Menu Navigator was re-run. -/
def verifyDnsApplied (env : VerifyEnv) (e1 e2 : String) (retries : Nat) :
    Bool × List Nat :=
  verifyGo env e1 e2 retries (iotaFrom 0 retries)

/-- Concrete frame for C3's witness: tier 1 resolves both
`input#dnsMainPri` and `input#dnsMainSec`; no labels, no heuristic
candidates. -/
def frC3 : DnsFrame where
  q := fun s =>
    if s = "input#dnsMainPri" then .found 1
    else if s = "input#dnsMainSec" then .found 2
    else .notFound
  label := fun _ => false
  heurInputs := []

/-- Concrete save context for C5's witness: no apply control anywhere and
no global `ApplyConfig`. -/
def saveCtxFail : SaveCtx where
  q := fun _ => .notFound
  byText := fun _ => false
  applyConfigDefined := false

/-- Concrete save context for C6's witness: no clickable control, but the
page exposes a global `ApplyConfig`, so the save step succeeds. -/
def saveCtxGlobal : SaveCtx where
  q := fun _ => .notFound
  byText := fun _ => false
  applyConfigDefined := true

/-- Concrete navigation context for C8's counterexample: all three fixed
menu ids resolve, the content frame is accessible, but the `#dhcp2title`
text check fails. -/
def navC8 : NavCtx where
  q := fun s =>
    if s = "#addconfig" then .found 1
    else if s = "#lanconfig" then .found 2
    else if s = "#landhcp" then .found 3
    else .notFound
  byText := fun _ => false
  qf := fun s => if s = "iframe#menuIframe" then .found 4 else .notFound
  cf := fun h => if h = 4 then some 9 else none
  titleOk := false

/-- Concrete navigation context where the first transition fails (no fixed
id, no text match), used to witness C8's amended failure case. -/
def navC8fail : NavCtx where
  q := fun _ => .notFound
  byText := fun _ => false
  qf := fun _ => .notFound
  cf := fun _ => none
  titleOk := false

/-- Concrete verification environment for C7's witness: the frame is always
present and the read-back matches the written values for the first time at
iteration 3. -/
def envC7 : VerifyEnv where
  frameAt := fun _ => true
  readAt := fun i => if i = 3 then ("1.1.1.1", "") else ("0.0.0.0", "")

theorem waitAndTypeFirst_skip (ctx : Ctx) (sel : String) (rest : List String)
    (value : String) (h : (ctx sel).isFound = false) :
    waitAndTypeFirst ctx (sel :: rest) value = waitAndTypeFirst ctx rest value := by
  cases hq : ctx sel with
  | found e => simp [QueryResult.isFound, hq] at h
  | notFound => simp [waitAndTypeFirst, hq]
  | error => simp [waitAndTypeFirst, hq]

theorem clickFirst_skip (ctx : Ctx) (sel : String) (rest : List String)
    (h : (ctx sel).isFound = false) :
    clickFirst ctx (sel :: rest) = clickFirst ctx rest := by
  cases hq : ctx sel with
  | found e => simp [QueryResult.isFound, hq] at h
  | notFound => simp [clickFirst, hq]
  | error => simp [clickFirst, hq]

theorem getContentFrameGo_skip (qf : Ctx) (cf : FrameOf) (sel : String)
    (rest : List String) (h : frameStep qf cf sel = none) :
    getContentFrameGo qf cf (sel :: rest) = getContentFrameGo qf cf rest := by
  cases hq : qf sel with
  | found e =>
    simp only [frameStep, hq] at h
    simp [getContentFrameGo, hq, h]
  | notFound => simp [getContentFrameGo, hq]
  | error => simp [getContentFrameGo, hq]

theorem waitAndTypeFirst_skip_all (ctx : Ctx) (pre l : List String)
    (value : String) (h : ∀ s ∈ pre, (ctx s).isFound = false) :
    waitAndTypeFirst ctx (pre ++ l) value = waitAndTypeFirst ctx l value := by
  induction pre with
  | nil => rfl
  | cons s rest ih =>
    rw [List.cons_append,
      waitAndTypeFirst_skip ctx s (rest ++ l) value (h s (by simp)),
      ih (fun t ht => h t (by simp [ht]))]

theorem clickFirst_skip_all (ctx : Ctx) (pre l : List String)
    (h : ∀ s ∈ pre, (ctx s).isFound = false) :
    clickFirst ctx (pre ++ l) = clickFirst ctx l := by
  induction pre with
  | nil => rfl
  | cons s rest ih =>
    rw [List.cons_append, clickFirst_skip ctx s (rest ++ l) (h s (by simp)),
      ih (fun t ht => h t (by simp [ht]))]

theorem getContentFrameGo_skip_all (qf : Ctx) (cf : FrameOf) (pre l : List String)
    (h : ∀ s ∈ pre, frameStep qf cf s = none) :
    getContentFrameGo qf cf (pre ++ l) = getContentFrameGo qf cf l := by
  induction pre with
  | nil => rfl
  | cons s rest ih =>
    rw [List.cons_append, getContentFrameGo_skip qf cf s (rest ++ l) (h s (by simp)),
      ih (fun t ht => h t (by simp [ht]))]

/-- C1: for every context and every ordered selector list, if none of the
first N candidates matches (for the typing and clicking cascades: the query
resolves no element; for the frame locator: the candidate resolves no
accessible frame, per the Frame Locator contract of spec section 4.4) and
candidate N+1 does match, then `waitAndTypeFirst` types into exactly the
element matched by candidate N+1 and returns true, `clickFirst` clicks
exactly that element and returns true, and the frame-locator loop returns
exactly the frame resolved by candidate N+1 — never a later candidate. -/
theorem C1_cascade_priority_order :
    (∀ (ctx : Ctx) (pre rest : List String) (sel value : String) (e : Nat),
      (∀ s ∈ pre, (ctx s).isFound = false) → ctx sel = .found e →
      waitAndTypeFirst ctx (pre ++ sel :: rest) value = some e) ∧
    (∀ (ctx : Ctx) (pre rest : List String) (sel : String) (e : Nat),
      (∀ s ∈ pre, (ctx s).isFound = false) → ctx sel = .found e →
      clickFirst ctx (pre ++ sel :: rest) = some e) ∧
    (∀ (qf : Ctx) (cf : FrameOf) (pre rest : List String) (sel : String)
      (h f : Nat),
      (∀ s ∈ pre, frameStep qf cf s = none) → qf sel = .found h →
      cf h = some f →
      getContentFrameGo qf cf (pre ++ sel :: rest) = some f) := by
  refine ⟨?_, ?_, ?_⟩
  · intro ctx pre rest sel value e hpre hsel
    rw [waitAndTypeFirst_skip_all ctx pre (sel :: rest) value hpre]
    simp [waitAndTypeFirst, hsel]
  · intro ctx pre rest sel e hpre hsel
    rw [clickFirst_skip_all ctx pre (sel :: rest) hpre]
    simp [clickFirst, hsel]
  · intro qf cf pre rest sel h f hpre hsel hcf
    rw [getContentFrameGo_skip_all qf cf pre (sel :: rest) hpre]
    simp [getContentFrameGo, hsel, hcf]

theorem C1_cascade_priority_order_witness :
    waitAndTypeFirst ctxC1 ["input#a", "input#b", "input#dns1"] "1.1.1.1" = some 5 ∧
    clickFirst ctxC1 ["input#a", "input#b", "input#dns1"] = some 5 ∧
    getContentFrameGo ctxC1 cfC1 ["input#a", "input#b", "input#dns1"] = some 9 :=
  ⟨C1_cascade_priority_order.1 ctxC1 ["input#a", "input#b"] [] "input#dns1"
      "1.1.1.1" 5 (by decide) (by decide),
   C1_cascade_priority_order.2.1 ctxC1 ["input#a", "input#b"] [] "input#dns1"
      5 (by decide) (by decide),
   C1_cascade_priority_order.2.2 ctxC1 cfC1 ["input#a", "input#b"] []
      "input#dns1" 5 9 (by decide) (by decide) (by decide)⟩

/-- C9 counterexample: in the `src/unnamed/part_000` version of
`waitAndTypeFirst`, an error raised while querying a malformed selector is
NOT treated as "candidate not found": the cascade does not continue to the
next candidate (which would have yielded element 7, as the `src/index.js`
version shows) but propagates the error fatally. -/
theorem C9_error_not_skipped_in_v0 :
    waitAndTypeFirstV0 ctxC9 ["p:bad(", "input#dns1"] "1.1.1.1" = .error () ∧
    waitAndTypeFirst ctxC9 ["p:bad(", "input#dns1"] "1.1.1.1" = some 7 :=
  ⟨rfl, rfl⟩

/-- C9 amended: a query error on one candidate is treated as "not found"
(the cascade simply continues with the next candidate, never fatally) in
`src/index.js`'s `waitAndTypeFirst` and in both versions of `clickFirst`;
the `src/unnamed/part_000` version of `waitAndTypeFirst` instead propagates
the error out of the cascade (see the counterexample). -/
theorem C9_error_treated_as_not_found
    (ctx : Ctx) (sel : String) (rest : List String) (value : String)
    (h : ctx sel = .error) :
    waitAndTypeFirst ctx (sel :: rest) value = waitAndTypeFirst ctx rest value ∧
    clickFirst ctx (sel :: rest) = clickFirst ctx rest ∧
    clickFirstV0 ctx (sel :: rest) = clickFirstV0 ctx rest := by
  refine ⟨?_, ?_, ?_⟩ <;> simp [waitAndTypeFirst, clickFirst, clickFirstV0, h]

theorem C9_error_treated_as_not_found_witness :
    waitAndTypeFirst ctxC9 ["p:bad(", "input#dns1"] "8.8.8.8"
      = waitAndTypeFirst ctxC9 ["input#dns1"] "8.8.8.8" ∧
    clickFirst ctxC9 ["p:bad(", "input#dns1"]
      = clickFirst ctxC9 ["input#dns1"] ∧
    clickFirstV0 ctxC9 ["p:bad(", "input#dns1"]
      = clickFirstV0 ctxC9 ["input#dns1"] :=
  C9_error_treated_as_not_found ctxC9 "p:bad(" ["input#dns1"] "8.8.8.8"
    (by decide)

/-- C10 counterexample: on a selector list containing a malformed pattern
before the first match, the two versions of `waitAndTypeFirst` do NOT
compute the same observable result: `src/index.js` skips the malformed
pattern and types into element 3, while `src/unnamed/part_000` propagates
the query error. -/
theorem C10_versions_disagree :
    waitAndTypeFirstV0 ctxC10 ["div:oops[", "input#dns2"] "1.0.0.1"
      ≠ .ok (waitAndTypeFirst ctxC10 ["div:oops[", "input#dns2"] "1.0.0.1") := by
  have h1 : waitAndTypeFirstV0 ctxC10 ["div:oops[", "input#dns2"] "1.0.0.1"
      = .error () := rfl
  rw [h1]
  intro hcontra
  exact Except.noConfusion hcontra

/-- C10 amended: the two versions of `clickFirst` compute the same result
(same boolean, same clicked element) on all inputs; the two versions of
`waitAndTypeFirst` agree (same boolean, same typed element) on every
selector list containing no malformed pattern, but diverge when a malformed
pattern precedes the first match (see the counterexample). -/
theorem C10_cascade_refinement :
    (∀ (ctx : Ctx) (selectors : List String),
      clickFirstV0 ctx selectors = clickFirst ctx selectors) ∧
    (∀ (ctx : Ctx) (selectors : List String) (value : String),
      (∀ s ∈ selectors, ctx s ≠ .error) →
      waitAndTypeFirstV0 ctx selectors value
        = .ok (waitAndTypeFirst ctx selectors value)) := by
  constructor
  · intro ctx selectors
    induction selectors with
    | nil => rfl
    | cons s rest ih => cases hq : ctx s <;> simp [clickFirst, clickFirstV0, hq, ih]
  · intro ctx selectors value h
    induction selectors with
    | nil => rfl
    | cons s rest ih =>
      cases hq : ctx s
      · simp [waitAndTypeFirst, waitAndTypeFirstV0, hq]
      · simp only [waitAndTypeFirst, waitAndTypeFirstV0, hq]
        exact ih (fun t ht => h t (by simp [ht]))
      · exact absurd hq (h s (by simp))

/-- Claim C2 counterexample: the label-based write path of
`setInputByLabel` dispatches no "change" event: on a concrete element and
value, the event log after the write contains no "change" entry (only the
two "input" dispatches), refuting the claim that every write path fires
both notifications. -/
theorem C2_label_writer_missing_change :
    ¬ ("change" ∈ (setInputByLabelWrite ⟨"8.8.8.8", []⟩ "1.1.1.1").events.map
        Prod.fst) := by
  decide

/-- Claim C2 amended: for every element and value V, both write paths leave
the element's value equal to V and dispatch an "input" notification for the
cleared empty state followed by an "input" notification carrying V; the
selector-based heuristic writer (`setVal`) additionally dispatches a
"change" notification, while the label-based writer (`setInputByLabel`)
dispatches no "change". -/
theorem C2_field_writer_effects (el : Elem) (v : String) :
    (setVal el v).value = v ∧
    (setVal el v).events
      = el.events ++ [("input", ""), ("input", v), ("change", v)] ∧
    (setInputByLabelWrite el v).value = v ∧
    (setInputByLabelWrite el v).events
      = el.events ++ [("input", ""), ("input", v)] := by
  refine ⟨rfl, ?_, rfl, ?_⟩ <;>
    simp [setVal, setInputByLabelWrite, dispatchOn, setValueTo]

/-- Claim C3: in `setDnsValues`, tier 2 for a field is attempted exactly
when tier 1 left that field unset (for the secondary: and a secondary was
requested), tier 3 is attempted exactly when the primary — or a requested
secondary — is still unset after tiers 1 and 2, and in particular when
tier 1 sets both fields the attempt trace is exactly the manual-mode
pre-step plus the tier-1 cascades, with no tier-2 or tier-3 entry and a
successful result. -/
theorem C3_tier_gating (fr : DnsFrame) (d1 d2 : String) :
    (DnsOp.tier2Pri ∈ (setDnsValuesFrame fr d1 d2).2 ↔ t1pri fr d1 = false) ∧
    (DnsOp.tier2Sec ∈ (setDnsValuesFrame fr d1 d2).2 ↔
      (d2.isEmpty = false ∧ t1sec fr d2 = false)) ∧
    (DnsOp.tier3 ∈ (setDnsValuesFrame fr d1 d2).2 ↔
      ((t1pri fr d1 || labPriChain fr) = false ∨
        (d2.isEmpty = false ∧ (t1sec fr d2 || labSecChain fr) = false))) ∧
    (t1pri fr d1 = true → (d2.isEmpty = false → t1sec fr d2 = true) →
      (setDnsValuesFrame fr d1 d2).2
        = [DnsOp.ensureManual, DnsOp.tier1Pri]
            ++ (if d2.isEmpty then [] else [DnsOp.tier1Sec]) ∧
      (setDnsValuesFrame fr d1 d2).1 = Except.ok ()) := by
  cases h1 : t1pri fr d1 <;> cases hd : d2.isEmpty <;>
    cases h2 : t1sec fr d2 <;> cases h3 : labPriChain fr <;>
    cases h4 : labSecChain fr <;>
    simp_all [setDnsValuesFrame]

theorem C3_tier_gating_witness :
    (setDnsValuesFrame frC3 "1.1.1.1" "1.0.0.1").2
      = [DnsOp.ensureManual, DnsOp.tier1Pri]
          ++ (if ("1.0.0.1" : String).isEmpty then [] else [DnsOp.tier1Sec]) ∧
    (setDnsValuesFrame frC3 "1.1.1.1" "1.0.0.1").1 = Except.ok () :=
  (C3_tier_gating frC3 "1.1.1.1" "1.0.0.1").2.2.2 rfl (fun _ => rfl)

theorem setDnsByHeuristic_fst (l : List HInput) (d1 d2 : String) :
    (setDnsByHeuristic l d1 d2).1 = !(l.filter looksLikeDns).isEmpty := by
  cases h : l.filter looksLikeDns <;> simp [setDnsByHeuristic, h]

/-- Claim C4: `setDnsValues` raises an error if and only if the primary DNS
field remains unresolved after all three tiers (with a missing content
frame counting as the primary being unresolved, since no tier ever runs):
its success boolean equals `primaryResolved`, a formula mentioning no
secondary-field oracle and no `dns2` value, and its result component is
literally unchanged when no secondary value is requested — so the secondary
field's absence or failure to be set never causes an error. -/
theorem C4_error_iff_primary_unresolved (frameQ : Option DnsFrame)
    (d1 d2 : String) :
    isOkE (setDnsValues frameQ d1 d2).1 = primaryResolved frameQ d1 ∧
    (setDnsValues frameQ d1 d2).1 = (setDnsValues frameQ d1 "").1 := by
  cases frameQ with
  | none => exact ⟨rfl, rfl⟩
  | some fr =>
    constructor <;>
    · cases h1 : t1pri fr d1 <;> cases hd : d2.isEmpty <;>
        cases h2 : t1sec fr d2 <;> cases h3 : labPriChain fr <;>
        cases h4 : labSecChain fr <;>
        cases h5 : (fr.heurInputs.filter looksLikeDns).isEmpty <;>
        simp_all [setDnsValues, setDnsValuesFrame, primaryResolved, isOkE,
          setDnsByHeuristic_fst, show ("" : String).isEmpty = true from rfl]

/-- Claim C5: `saveChanges` tries, in order, the fixed `#btnApply_ex`
identifier, the generic save-button cascade, the six text words Apply,
Save, Guardar, Aplicar, Submit, OK, and finally the global `ApplyConfig`
invocation — computing exactly the try-in-order, first-success-wins
resolution of those stages (so the first success stops the sequence and
returns true, a later stage is attempted only when all earlier ones failed,
and exhaustion returns false) — and when every attempt fails, `main`
aborts with the fatal no-save-control error. -/
theorem C5_apply_attempt_order (c : SaveCtx) :
    saveChanges c = tryInOrder (saveStages c) ∧
    (∀ (verified : Bool) (d1 d2 : String), (saveChanges c).1 = false →
      mainTail (saveChanges c).1 verified d1 d2
        = Except.error "Could not find a Save/Apply button.") := by
  constructor
  · cases h0 : (c.q "#btnApply_ex").isFound with
    | true => simp [saveChanges, saveStages, saveTextWords, tryInOrder, h0]
    | false =>
    cases h1 : (clickFirst c.q saveButtonsSelectors).isSome with
    | true => simp [saveChanges, saveStages, saveTextWords, tryInOrder, h0, h1]
    | false =>
    cases h2 : c.byText "Apply" with
    | true =>
      simp [saveChanges, saveStages, saveTextWords, tryInOrder, h0, h1, h2]
    | false =>
    cases h3 : c.byText "Save" with
    | true =>
      simp [saveChanges, saveStages, saveTextWords, tryInOrder, h0, h1, h2, h3]
    | false =>
    cases h4 : c.byText "Guardar" with
    | true =>
      simp [saveChanges, saveStages, saveTextWords, tryInOrder, h0, h1, h2, h3,
        h4]
    | false =>
    cases h5 : c.byText "Aplicar" with
    | true =>
      simp [saveChanges, saveStages, saveTextWords, tryInOrder, h0, h1, h2, h3,
        h4, h5]
    | false =>
    cases h6 : c.byText "Submit" with
    | true =>
      simp [saveChanges, saveStages, saveTextWords, tryInOrder, h0, h1, h2, h3,
        h4, h5, h6]
    | false =>
    cases h7 : c.byText "OK" with
    | true =>
      simp [saveChanges, saveStages, saveTextWords, tryInOrder, h0, h1, h2, h3,
        h4, h5, h6, h7]
    | false =>
    cases h8 : c.applyConfigDefined with
    | true =>
      simp [saveChanges, saveStages, saveTextWords, tryInOrder, h0, h1, h2, h3,
        h4, h5, h6, h7, h8]
    | false =>
      simp [saveChanges, saveStages, saveTextWords, tryInOrder, h0, h1, h2, h3,
        h4, h5, h6, h7, h8]
  · intro verified d1 d2 h
    rw [h]
    rfl

theorem C5_apply_attempt_order_witness :
    saveChanges saveCtxFail = tryInOrder (saveStages saveCtxFail) ∧
    mainTail (saveChanges saveCtxFail).1 false "1.1.1.1" ""
      = Except.error "Could not find a Save/Apply button." :=
  ⟨(C5_apply_attempt_order saveCtxFail).1,
   (C5_apply_attempt_order saveCtxFail).2 false "1.1.1.1" "" rfl⟩

/-- Claim C6: in every run where the save control was found and clicked
(`saveChanges` returned true), the run reports the success line with exit
status 0 whatever the verification boolean turned out to be — `main` never
consults `verified` outside debug logging, so verification is advisory
only. -/
theorem C6_verification_advisory (c : SaveCtx) (verified : Bool)
    (d1 d2 : String) (h : (saveChanges c).1 = true) :
    mainTail (saveChanges c).1 verified d1 d2
      = Except.ok (successMsg d1 d2) ∧
    exitCodeOf (mainTail (saveChanges c).1 verified d1 d2) = 0 ∧
    (∀ v' : Bool, mainTail (saveChanges c).1 verified d1 d2
        = mainTail (saveChanges c).1 v' d1 d2) := by
  rw [h]
  exact ⟨rfl, rfl, fun _ => rfl⟩

theorem C6_verification_advisory_witness :
    mainTail (saveChanges saveCtxGlobal).1 false "1.1.1.1" "1.0.0.1"
      = Except.ok (successMsg "1.1.1.1" "1.0.0.1") ∧
    exitCodeOf (mainTail (saveChanges saveCtxGlobal).1 false "1.1.1.1" "1.0.0.1")
      = 0 :=
  ⟨(C6_verification_advisory saveCtxGlobal false "1.1.1.1" "1.0.0.1" rfl).1,
   (C6_verification_advisory saveCtxGlobal false "1.1.1.1" "1.0.0.1" rfl).2.1⟩

theorem mem_iotaFrom {j : Nat} : ∀ (n a : Nat), j ∈ iotaFrom a n → a ≤ j := by
  intro n
  induction n with
  | zero => intro a h; simp [iotaFrom] at h
  | succ m ih =>
    intro a h
    simp only [iotaFrom, List.mem_cons] at h
    rcases h with h | h
    · omega
    · have := ih (a + 1) h
      omega

theorem verifyGo_mem_navs (env : VerifyEnv) (e1 e2 : String) (retries : Nat) :
    ∀ (l : List Nat) (j : Nat), j ∈ (verifyGo env e1 e2 retries l).2 →
      (j : Int) = (retries : Int) - 2 ∧ dnsMatch env e1 e2 j = false ∧ j ∈ l := by
  intro l
  induction l with
  | nil => intro j h; simp [verifyGo] at h
  | cons i rest ih =>
    intro j h
    by_cases hf : env.frameAt i
    · by_cases hm : dnsMatch env e1 e2 i
      · simp [verifyGo, hf, hm] at h
      · simp only [verifyGo, hf, hm, if_true, if_false, Bool.false_eq_true,
          List.mem_append] at h
        rcases h with h | h
        · by_cases hi : (i : Int) = (retries : Int) - 2
          · simp only [hi, if_true] at h
            simp only [List.mem_singleton] at h
            subst h
            exact ⟨hi, by simpa using hm, by simp⟩
          · simp [hi] at h
        · obtain ⟨h1, h2, h3⟩ := ih j h
          exact ⟨h1, h2, by simp [h3]⟩
    · simp [verifyGo, hf] at h

theorem verifyGo_navs_short (env : VerifyEnv) (e1 e2 : String)
    (retries : Nat) :
    ∀ (n a : Nat), ((verifyGo env e1 e2 retries (iotaFrom a n)).2).length ≤ 1 := by
  intro n
  induction n with
  | zero => intro a; simp [iotaFrom, verifyGo]
  | succ m ih =>
    intro a
    by_cases hf : env.frameAt a
    · by_cases hm : dnsMatch env e1 e2 a
      · simp [iotaFrom, verifyGo, hf, hm]
      · simp only [iotaFrom, verifyGo, hf, hm, if_true, if_false,
          Bool.false_eq_true, List.length_append]
        by_cases hi : (a : Int) = (retries : Int) - 2
        · have hrec :
              (verifyGo env e1 e2 retries (iotaFrom (a + 1) m)).2 = [] := by
            rcases hh : (verifyGo env e1 e2 retries (iotaFrom (a + 1) m)).2 with
              _ | ⟨j, tl⟩
            · rfl
            · exfalso
              have hj : j ∈ (verifyGo env e1 e2 retries (iotaFrom (a + 1) m)).2 := by
                simp [hh]
              obtain ⟨hj1, _, hj3⟩ :=
                verifyGo_mem_navs env e1 e2 retries (iotaFrom (a + 1) m) j hj
              have := mem_iotaFrom m (a + 1) hj3
              omega
          simp [hi, hrec]
        · simpa [hi] using ih (a + 1)
    · simp [iotaFrom, verifyGo, hf]

theorem verifyGo_run (env : VerifyEnv) (e1 e2 : String) (retries : Nat) :
    ∀ (n a : Nat), a + n = retries → 1 ≤ n →
      (∀ i, a ≤ i → i < retries → env.frameAt i = true) →
      (∀ i, a ≤ i → i < retries - 1 → dnsMatch env e1 e2 i = false) →
      dnsMatch env e1 e2 (retries - 1) = true →
      verifyGo env e1 e2 retries (iotaFrom a n)
        = (true, if a + 1 < retries then [retries - 2] else []) := by
  intro n
  induction n with
  | zero => omega
  | succ m ih =>
    intro a htot _ hframe hnomatch hlast
    have hfa : env.frameAt a = true := hframe a (Nat.le_refl a) (by omega)
    by_cases hm : a = retries - 1
    · have hma : dnsMatch env e1 e2 a = true := hm ▸ hlast
      have hlt : ¬ (a + 1 < retries) := by omega
      simp [iotaFrom, verifyGo, hfa, hma, hlt]
    · have hma : dnsMatch env e1 e2 a = false :=
        hnomatch a (Nat.le_refl a) (by omega)
      have hm1 : 1 ≤ m := by omega
      have hrec := ih (a + 1) (by omega) hm1
        (fun i h1 h2 => hframe i (by omega) h2)
        (fun i h1 h2 => hnomatch i (by omega) h2) hlast
      by_cases hi : (a : Int) = (retries : Int) - 2
      · have h2r : ¬ (a + 1 + 1 < retries) := by omega
        have h1r : a + 1 < retries := by omega
        simp [iotaFrom, verifyGo, hfa, hma, hi, hrec, h2r, h1r]
        omega
      · have h2r : a + 1 + 1 < retries := by omega
        have h1r : a + 1 < retries := by omega
        simp [iotaFrom, verifyGo, hfa, hma, hi, hrec, h2r, h1r]

/-- Claim C7: within one verification call with R retries, every recorded
re-navigation happens at the iteration where exactly one retry remains
(index R-2, in exact integer arithmetic) and only when the values had not
yet matched there; at most one re-navigation ever occurs; and in the run
where the frame is always present, no earlier iteration matches and the
values match on the final remaining retry, verification re-runs the Menu
Navigator exactly once (at index R-2) and returns true. -/
theorem C7_single_renavigation (env : VerifyEnv) (e1 e2 : String)
    (retries : Nat) :
    (∀ j ∈ (verifyDnsApplied env e1 e2 retries).2,
      j = retries - 2 ∧ dnsMatch env e1 e2 j = false) ∧
    ((verifyDnsApplied env e1 e2 retries).2).length ≤ 1 ∧
    (2 ≤ retries →
      (∀ i, i < retries → env.frameAt i = true) →
      (∀ i, i < retries - 1 → dnsMatch env e1 e2 i = false) →
      dnsMatch env e1 e2 (retries - 1) = true →
      verifyDnsApplied env e1 e2 retries = (true, [retries - 2])) := by
  refine ⟨?_, ?_, ?_⟩
  · intro j hj
    obtain ⟨h1, h2, _⟩ :=
      verifyGo_mem_navs env e1 e2 retries (iotaFrom 0 retries) j hj
    exact ⟨by omega, h2⟩
  · exact verifyGo_navs_short env e1 e2 retries retries 0
  · intro hr hframe hnomatch hlast
    have := verifyGo_run env e1 e2 retries retries 0 (by omega) (by omega)
      (fun i _ h2 => hframe i h2) (fun i _ h2 => hnomatch i h2) hlast
    rw [verifyDnsApplied, this]
    simp [show 0 + 1 < retries by omega]

theorem C7_single_renavigation_witness :
    verifyDnsApplied envC7 "1.1.1.1" "" 4 = (true, [2]) :=
  (C7_single_renavigation envC7 "1.1.1.1" "" 4).2.2 (by omega)
    (fun i _ => rfl) (by decide) (by decide)

/-- Claim C8 counterexample: with all three menu transitions and the frame
lookup succeeding but the `#dhcp2title` confirmation failing,
`navigateToDns` returns the truthy string "iframe-dhcp-no-title" and
`main`'s check treats the path as reached — so failure of the title
confirmation does not abort navigation and is not reported as "path not
reached", refuting the claim. -/
theorem C8_no_title_still_reported_reached :
    navigateToDns navC8 = some "iframe-dhcp-no-title" ∧
    navC8.titleOk = false ∧
    mainNavCheck (navigateToDns navC8) = Except.ok () :=
  ⟨rfl, rfl, rfl⟩

/-- Claim C8 amended: `navigateToDns` reports the path as not reached
(null, which `main` turns into the fatal navigation error) exactly when one
of the three menu transitions fails or the content frame cannot be located;
when all of those succeed it always reports success, and the bounded title
confirmation only selects which truthy string is returned ("iframe-dhcp" on
a confirmed title, "iframe-dhcp-no-title" otherwise). -/
theorem C8_nav_failure_semantics (c : NavCtx) :
    (navigateToDns c = none ↔
      (navStep c "#addconfig" "Advanced Configuration" = false ∨
        navStep c "#lanconfig" "LAN" = false ∨
        navStep c "#landhcp" "DHCP Server" = false ∨
        getContentFrameGo c.qf c.cf contentFrameSelectors = none)) ∧
    (∀ r, navigateToDns c = some r →
      r = (if c.titleOk then "iframe-dhcp" else "iframe-dhcp-no-title")) ∧
    (navigateToDns c = none →
      mainNavCheck (navigateToDns c)
        = Except.error
            "Could not reach DNS page automatically. Run with --headful and adjust SELECTORS.") := by
  refine ⟨?_, ?_, ?_⟩
  · cases h1 : navStep c "#addconfig" "Advanced Configuration" <;>
      cases h2 : navStep c "#lanconfig" "LAN" <;>
      cases h3 : navStep c "#landhcp" "DHCP Server" <;>
      rcases h4 : getContentFrameGo c.qf c.cf contentFrameSelectors with _ | f <;>
      simp_all [navigateToDns]
  · intro r hr
    by_cases h1 : navStep c "#addconfig" "Advanced Configuration" <;>
      by_cases h2 : navStep c "#lanconfig" "LAN" <;>
      by_cases h3 : navStep c "#landhcp" "DHCP Server" <;>
      rcases h4 : getContentFrameGo c.qf c.cf contentFrameSelectors with _ | f <;>
      simp_all [navigateToDns]
  · intro h
    rw [h]
    rfl

theorem C8_nav_failure_semantics_witness :
    "iframe-dhcp-no-title"
      = (if navC8.titleOk then "iframe-dhcp" else "iframe-dhcp-no-title") ∧
    mainNavCheck (navigateToDns navC8fail)
      = Except.error
          "Could not reach DNS page automatically. Run with --headful and adjust SELECTORS." :=
  ⟨(C8_nav_failure_semantics navC8).2.1 "iframe-dhcp-no-title" rfl,
   (C8_nav_failure_semantics navC8fail).2.2 rfl⟩

theorem C10_cascade_refinement_witness :
    clickFirstV0 ctxC10 ["div:oops[", "input#dns2"]
      = clickFirst ctxC10 ["div:oops[", "input#dns2"] ∧
    waitAndTypeFirstV0 ctxC10 ["input#dns2"] "1.0.0.1"
      = .ok (waitAndTypeFirst ctxC10 ["input#dns2"] "1.0.0.1") :=
  ⟨C10_cascade_refinement.1 ctxC10 ["div:oops[", "input#dns2"],
   C10_cascade_refinement.2 ctxC10 ["input#dns2"] "1.0.0.1" (by decide)⟩

end Router
